import Mathlib

/-!
Verification development for the thirdweb-payment repository
(src/PaymentButton.tsx, the full variant with onTransactionLog,
given in src/unnamed/part_002).

The component is a stateful React view over an external wallet SDK.
We shallow-embed it as follows:

* TypeScript strings are Lean `String` (a wrapped `List Char`); the
  ethers v5 unit-conversion helpers `parseEther` / `formatEther`
  (`parseFixed` / `formatFixed` with 18 decimals) are translated
  literally, including their regex check, decimal-point split,
  trailing-zero trimming and padding.
* The external collaborators (`useSDK`, `getSigner`, `signer.provider`,
  `sendTransaction`, `wait`, `getTransaction`, `getNetwork`) are an
  oracle `Env` fixing the outcome of each awaited call; a rejected
  promise or thrown value is an `Except.error` carrying the thrown
  JavaScript value (`PayErr`).
* An event-handler invocation is embedded as the list of primitive
  actions it performs in order: React state writes, awaited external
  calls, and callback invocations.  The resulting component state is
  the left fold of the writes over the previous state, and the
  callbacks fired are the emitted events, in order.
-/

namespace TWP

/-- Decidable equality for the oracle outcomes. -/
instance {ε α : Type} [DecidableEq ε] [DecidableEq α] : DecidableEq (Except ε α) := fun a b =>
  match a, b with
  | .ok x, .ok y =>
    match decEq x y with
    | .isTrue h => .isTrue (h ▸ rfl)
    | .isFalse h => .isFalse (fun hh => h (Except.ok.inj hh))
  | .error x, .error y =>
    match decEq x y with
    | .isTrue h => .isTrue (h ▸ rfl)
    | .isFalse h => .isFalse (fun hh => h (Except.error.inj hh))
  | .ok _, .error _ => .isFalse (fun hh => Except.noConfusion hh)
  | .error _, .ok _ => .isFalse (fun hh => Except.noConfusion hh)

/-- A thrown JavaScript value: either an `Error` instance carrying a
message, or an arbitrary non-`Error` value (identified by a tag). -/
inductive PayErr where
  | jsError (message : String)
  | nonError (tag : Nat)
deriving DecidableEq, Repr

/-- `error instanceof Error ? error.message : "An unknown error occurred"`. -/
def errMessage : PayErr → String
  | .jsError m => m
  | .nonError _ => "An unknown error occurred"

/-! ## Decimal strings: the ethers v5 fixed-point helpers, 18 decimals -/

/-- Numeric value of a decimal digit character. -/
def digitVal (c : Char) : Nat := c.toNat - 48

/-- The character for a decimal digit. -/
def digitChar (d : Nat) : Char := Char.ofNat (48 + d)

/-- `BigNumber.from` on a string of decimal digits. -/
def natOfDigits (l : List Char) : Nat := l.foldl (fun a c => 10 * a + digitVal c) 0

/-- Big-endian decimal digits of `n`, fuel-driven so that it reduces in
the kernel (`BigNumber.prototype.toString`, base 10, without sign). -/
def natToDigitsAux : Nat → Nat → List Char
  | 0, _ => []
  | fuel + 1, n => if n = 0 then [] else natToDigitsAux fuel (n / 10) ++ [digitChar (n % 10)]

/-- Decimal digit string of a natural number, `"0"` for zero. -/
def natDigits (n : Nat) : List Char := if n = 0 then ['0'] else natToDigitsAux n n

/-- `10^18`, the wei multiplier used by `parseEther` / `formatEther`. -/
def E18 : Nat := 10 ^ 18

/-- The `fraction.match(/^([0-9]*[1-9]|0)(0*)/)[1]` step of
`formatFixed` and the trailing-zero `while` loop of `parseFixed`:
remove all trailing `'0'` characters. -/
def trimTrailingZeros (l : List Char) : List Char :=
  (l.reverse.dropWhile (fun c => c == '0')).reverse

/-- The `fraction` string of `formatFixed(value, 18)` before the
trailing-zero strip: the decimal digits of `v % 10^18`, left-padded
with zeros to 18 characters. -/
def fracPadded (v : Nat) : List Char :=
  List.replicate (18 - (natDigits (v % E18)).length) '0' ++ natDigits (v % E18)

/-- The fractional component produced by `formatFixed(value, 18)` for a
non-negative value `v` in wei: the padded digits stripped of trailing
zeros, or `"0"` when everything was stripped. -/
def fracPart (v : Nat) : List Char :=
  if trimTrailingZeros (fracPadded v) = [] then ['0'] else trimTrailingZeros (fracPadded v)

/-- `ethers.utils.formatEther` = `formatFixed(value, 18)`: sign,
whole part `value / 10^18`, a decimal point, and the stripped
fractional part. -/
def formatEtherChars (wei : Int) : List Char :=
  (if wei < 0 then ['-'] else []) ++ natDigits (wei.natAbs / E18) ++ '.' :: fracPart wei.natAbs

/-- A character allowed by the `parseFixed` regex body `[0-9.]`. -/
def isDigitOrDot (c : Char) : Bool := c.isDigit || c == '.'

/-- The regex body check `[0-9.]+` of `parseFixed`. -/
def parseBody (l : List Char) : Bool := !l.isEmpty && l.all isDigitOrDot

/-- The `value.match(/^-?[0-9.]+$/)` check of `parseFixed`. -/
def decimalMatch (l : List Char) : Bool :=
  if l.head? = some '-' then parseBody l.tail else parseBody l

/-- `value.split(".")`, with JavaScript semantics (an empty string
yields `[""]`, separators at the ends yield empty components). -/
def splitOnDot : List Char → List (List Char)
  | [] => [[]]
  | c :: rest =>
    if c = '.' then [] :: splitOnDot rest
    else
      match splitOnDot rest with
      | [] => [[c]]
      | h :: t => (c :: h) :: t

/-- The `while (fraction.length < multiplier.length - 1) fraction += "0"`
padding loop of `parseFixed` with 18 decimals. -/
def padTo18 (l : List Char) : List Char := l ++ List.replicate (18 - l.length) '0'

/-- The sign-stripped part of `parseFixed(value, 18)`: the `"."` check,
the decimal-point split, defaulting of empty components, trailing-zero
trim, precision check, padding, and assembly of the wei value. -/
def parseEtherPos (v : List Char) (negative : Bool) : Except PayErr Int :=
  if v = ['.'] then .error (.jsError ("missing value"))
  else
    let comps := splitOnDot v
    if 2 < comps.length then .error (.jsError ("too many decimal points"))
    else
      let whole0 := comps.headD []
      let whole := if whole0 = [] then ['0'] else whole0
      let fraction0 := (comps.drop 1).headD []
      let fraction1 := if fraction0 = [] then ['0'] else fraction0
      let fraction2 := trimTrailingZeros fraction1
      if 18 < fraction2.length then
        .error (.jsError ("fractional component exceeds decimals"))
      else
        let fraction3 := if fraction2 = [] then ['0'] else fraction2
        let fraction4 := padTo18 fraction3
        let wei : Int := ((natOfDigits whole * E18 + natOfDigits fraction4 : Nat) : Int)
        .ok (if negative then -wei else wei)

/-- `ethers.utils.parseEther` = `parseFixed(value, 18)`: regex check,
sign strip, then `parseEtherPos`. -/
def parseEtherChars (l : List Char) : Except PayErr Int :=
  if decimalMatch l then
    if l.head? = some '-' then parseEtherPos l.tail true
    else parseEtherPos l false
  else .error (.jsError ("invalid decimal value"))

/-- `ethers.utils.parseEther` on a `String`. -/
def parseEther (s : String) : Except PayErr Int := parseEtherChars s.data

/-- `ethers.utils.formatEther` on a `String`. -/
def formatEther (w : Int) : String := ⟨formatEtherChars w⟩

/-- `BigNumber.prototype.toString` (decimal, with sign). -/
def bigNumberToString (w : Int) : String :=
  ⟨(if w < 0 then ['-'] else []) ++ natDigits w.natAbs⟩

/-- `Number.prototype.toString` for the natural-valued fields. -/
def natToString (n : Nat) : String := ⟨natDigits n⟩

/-! ## The external collaborators (wallet SDK oracle) -/

/-- The object resolved by `signer.sendTransaction`. -/
structure TxResponse where
  hash : String
deriving DecidableEq, Repr

/-- The receipt resolved by `txResponse.wait()`. -/
structure Receipt where
  status : Nat
deriving DecidableEq, Repr

/-- The mined transaction resolved by `provider.getTransaction(hash)`.
A `null` result makes the later field accesses throw, which is folded
into the rejected-promise case of the oracle. -/
structure MinedTx where
  value : Int
  fromAddr : String
  toAddr : String
  nonce : Nat
  gasLimit : Nat
  gasPrice : Option Nat
  maxFeePerGas : Option Nat
  maxPriorityFeePerGas : Option Nat
  chainId : Nat
deriving DecidableEq, Repr

/-- The object resolved by `provider.getNetwork()`. -/
structure Network where
  chainId : Nat
deriving DecidableEq, Repr

/-- One fixed outcome for every external-collaborator call an
invocation can make: presence of `useSDK()` / `getSigner()` /
`signer.provider`, and the settlement of each awaited promise
(`Except.error e` is a rejection with thrown value `e`). -/
structure Env where
  sdk : Bool
  signer : Bool
  provider : Bool
  sendTransaction : Except PayErr TxResponse
  wait : Except PayErr Receipt
  getTransaction : Except PayErr MinedTx
  getNetwork : Except PayErr Network
deriving DecidableEq, Repr

/-- The props the operations read, with each optional callback
replaced by whether it was supplied. -/
structure Props where
  recipient : String
  amount : String
  onPaymentSuccess : Bool
  onPaymentError : Bool
  onTransactionLog : Bool
deriving DecidableEq, Repr

/-! ## Component state and primitive actions -/

/-- The `useState` cells of `PaymentButton`. -/
structure ComponentState where
  termsChecked : Bool
  isLoading : Bool
  showConfirmModal : Bool
  paymentConfirmed : Bool
  errorMsg : Option String
  validationError : Option String
  remainingAmount : Option String
  txn : Option String
  explorerUrl : Option String
  transactionStatus : Option String
deriving DecidableEq, Repr

/-- A single React state-setter invocation. -/
inductive StateWrite where
  | termsChecked (b : Bool)
  | isLoading (b : Bool)
  | showConfirmModal (b : Bool)
  | paymentConfirmed (b : Bool)
  | errorMsg (v : Option String)
  | validationError (v : Option String)
  | remainingAmount (v : Option String)
  | txn (v : Option String)
  | explorerUrl (v : Option String)
  | transactionStatus (v : Option String)
deriving DecidableEq, Repr

/-- An awaited external-collaborator call, with its arguments. -/
inductive ExtCall where
  | sendTransaction (toAddr : String) (value : Int)
  | wait
  | getTransaction
  | getNetwork
deriving DecidableEq, Repr

/-- The object literal logged for `type: "success"` and
`type: "additionalPaymentSuccess"` events (lines 144-158 and 219-234). -/
structure SuccessLog where
  transactionHash : String
  fromAddr : String
  toAddr : String
  amount : String
  nonce : Nat
  gasLimit : String
  gasPrice : Option String
  maxFeePerGas : Option String
  maxPriorityFeePerGas : Option String
  chainId : Nat
  initialAmount : String
  remainingAmount : String
deriving DecidableEq, Repr

/-- The four object shapes passed to `onTransactionLog`. -/
inductive LogEvent where
  | success (l : SuccessLog)
  | error (errorMessage : String) (amount : String) (recipient : String)
  | additionalPaymentSuccess (l : SuccessLog)
  | additionalPaymentError (errorMessage : String) (initialAmount : String)
      (remainingAmount : Option String) (recipient : String)
deriving DecidableEq, Repr

/-- An invocation of one of the three optional callbacks. -/
inductive CallbackEvent where
  | paymentSuccess
  | paymentError (e : PayErr)
  | transactionLog (l : LogEvent)
deriving DecidableEq, Repr

/-- A primitive step performed by an event handler, in program order. -/
inductive Action where
  | write (w : StateWrite)
  | call (c : ExtCall)
  | emit (e : CallbackEvent)
deriving DecidableEq, Repr

/-- Effect of one state-setter on the state. -/
def applyWrite (st : ComponentState) : StateWrite → ComponentState
  | .termsChecked b => { st with termsChecked := b }
  | .isLoading b => { st with isLoading := b }
  | .showConfirmModal b => { st with showConfirmModal := b }
  | .paymentConfirmed b => { st with paymentConfirmed := b }
  | .errorMsg v => { st with errorMsg := v }
  | .validationError v => { st with validationError := v }
  | .remainingAmount v => { st with remainingAmount := v }
  | .txn v => { st with txn := v }
  | .explorerUrl v => { st with explorerUrl := v }
  | .transactionStatus v => { st with transactionStatus := v }

/-- Effect of one action on the state (calls and emits leave it alone). -/
def applyAction (st : ComponentState) : Action → ComponentState
  | .write w => applyWrite st w
  | .call _ => st
  | .emit _ => st

/-- State after a handler ran, from the state before it. -/
def runTrace (st : ComponentState) (tr : List Action) : ComponentState :=
  tr.foldl applyAction st

/-- The callbacks fired by a handler, in order. -/
def emittedEvents (tr : List Action) : List CallbackEvent :=
  tr.filterMap fun a => match a with
    | .emit e => some e
    | _ => none

/-! ## The operations (translated from src/PaymentButton.tsx, part_002) -/

/-- `getExplorerUrl` (lines 84-101): fixed chain-id lookup table;
unknown chain ids yield the empty string. -/
def getExplorerUrl (chainId : Nat) (txHash : String) : String :=
  if chainId = 1 then "https://etherscan.io/tx/" ++ txHash
  else if chainId = 3 then "https://ropsten.etherscan.io/tx/" ++ txHash
  else if chainId = 4 then "https://rinkeby.etherscan.io/tx/" ++ txHash
  else if chainId = 5 then "https://goerli.etherscan.io/tx/" ++ txHash
  else if chainId = 42 then "https://kovan.etherscan.io/tx/" ++ txHash
  else if chainId = 80001 then "https://mumbai.polygonscan.com/tx/" ++ txHash
  else ""

/-- The `validationError` message template of line 130. -/
def owedMsg (owedAmount : String) : String :=
  "The sent amount does not match the requested amount. You still owe " ++ owedAmount ++ " ETH."

/-- The tail of the `try` block of `handlePayment` once `sendTransaction`
has resolved (lines 120-162): the awaited receipt, the mined-transaction
lookup, the underpaid comparison of lines 123-133 and the receipt-status
branch.  The repeated `ethers.utils.parseEther(amount)` of line 127 is
pure, so its second evaluation is the `valueInWei` already obtained at
line 111. -/
def paymentAfterSend (p : Props) (env : Env) (valueInWei : Int) (txResponse : TxResponse) :
    List Action × Except PayErr Unit :=
  match env.wait with
  | .error e => ([], .error e)
  | .ok receipt =>
    match env.getTransaction with
    | .error e => ([.call .getTransaction], .error e)
    | .ok transaction =>
      let sentAmount := formatEther transaction.value
      let owedAmount : String :=
        if sentAmount ≠ p.amount then formatEther (valueInWei - transaction.value) else "0.0"
      let mismatchActs : List Action :=
        if sentAmount ≠ p.amount then
          [.write (.validationError (some (owedMsg owedAmount))),
           .write (.remainingAmount (some owedAmount))]
        else []
      let pre2 := [Action.call .getTransaction] ++ mismatchActs
      if receipt.status = 1 then
        match env.getNetwork with
        | .error e =>
          (pre2 ++ [.write (.transactionStatus (some ("Success"))), .call .getNetwork],
           .error e)
        | .ok network =>
          (pre2 ++ [.write (.transactionStatus (some ("Success"))), .call .getNetwork,
                    .write (.explorerUrl (some (getExplorerUrl network.chainId txResponse.hash)))]
            ++ (if p.onPaymentSuccess then [Action.emit .paymentSuccess] else [])
            ++ [.write (.paymentConfirmed true)]
            ++ (if p.onTransactionLog then
                  [Action.emit (.transactionLog (.success
                    { transactionHash := txResponse.hash
                      fromAddr := transaction.fromAddr
                      toAddr := transaction.toAddr
                      amount := bigNumberToString transaction.value
                      nonce := transaction.nonce
                      gasLimit := natToString transaction.gasLimit
                      gasPrice := transaction.gasPrice.map natToString
                      maxFeePerGas := transaction.maxFeePerGas.map natToString
                      maxPriorityFeePerGas := transaction.maxPriorityFeePerGas.map natToString
                      chainId := transaction.chainId
                      initialAmount := p.amount
                      remainingAmount := owedAmount }))]
                else []),
           .ok ())
      else
        (pre2 ++ [.write (.transactionStatus (some ("Failed")))],
         .error (.jsError ("Payment transaction failed.")))

/-- The `try` block of `handlePayment` (lines 108-162): the actions it
performs in order, and whether it completed or threw.  After
`sendTransaction` resolves, the transaction hash is written to `txn`
(line 119) before `txResponse.wait()` is awaited. -/
def handlePaymentBody (p : Props) (env : Env) : List Action × Except PayErr Unit :=
  if !env.sdk then ([], .error (.jsError ("Please connect your wallet first.")))
  else
    match parseEther p.amount with
    | .error e => ([], .error e)
    | .ok valueInWei =>
      if !env.signer then ([], .error (.jsError ("Signer not available.")))
      else if !env.provider then ([], .error (.jsError ("Provider not available.")))
      else
        match env.sendTransaction with
        | .error e => ([.call (.sendTransaction p.recipient valueInWei)], .error e)
        | .ok txResponse =>
          ([Action.call (.sendTransaction p.recipient valueInWei),
            Action.write (.txn (some txResponse.hash)),
            Action.call .wait] ++ (paymentAfterSend p env valueInWei txResponse).1,
           (paymentAfterSend p env valueInWei txResponse).2)

/-- The `catch` block of `handlePayment` (lines 163-176). -/
def paymentCatch (p : Props) (res : Except PayErr Unit) : List Action :=
  match res with
  | .ok _ => []
  | .error e =>
    [.write (.transactionStatus (some ("Failed"))), .write (.errorMsg (some (errMessage e)))]
    ++ (if p.onPaymentError then [Action.emit (.paymentError e)] else [])
    ++ (if p.onTransactionLog then
          [Action.emit (.transactionLog (.error (errMessage e) p.amount p.recipient))]
        else [])

/-- The writes of lines 104-106 performed before the `try`. -/
def paymentPrologue : List Action :=
  [.write (.isLoading true), .write (.transactionStatus (some ("Loading"))),
   .write (.validationError none)]

/-- `handlePayment` (lines 103-180): prologue, `try` body, `catch`,
and the `finally` that clears the loading flag. -/
def handlePayment (p : Props) (env : Env) : List Action :=
  paymentPrologue ++ (handlePaymentBody p env).1 ++ paymentCatch p (handlePaymentBody p env).2
    ++ [.write (.isLoading false)]

/-- The `try` block of `handleAdditionalPayment` (lines 193-238) for a
non-null argument `r`.  `ethers.utils.parseEther(amount)` of line 209
re-parses the original `amount` prop. -/
def handleAdditionalPaymentBody (p : Props) (env : Env) (r : String) :
    List Action × Except PayErr Unit :=
  if !env.sdk then ([], .error (.jsError ("Please connect your wallet first.")))
  else
    match parseEther r with
    | .error e => ([], .error e)
    | .ok remainingAmountInWei =>
      if !env.signer then ([], .error (.jsError ("Signer not available.")))
      else if !env.provider then ([], .error (.jsError ("Provider not available.")))
      else
        match env.sendTransaction with
        | .error e => ([.call (.sendTransaction p.recipient remainingAmountInWei)], .error e)
        | .ok txResponse =>
          let pre := [Action.call (.sendTransaction p.recipient remainingAmountInWei),
                      Action.call .wait]
          match env.wait with
          | .error e => (pre, .error e)
          | .ok receipt =>
            match env.getTransaction with
            | .error e => (pre ++ [.call .getTransaction], .error e)
            | .ok updatedTransaction =>
              match parseEther p.amount with
              | .error e => (pre ++ [.call .getTransaction], .error e)
              | .ok amountInWei =>
                let updatedRemainingAmount :=
                  formatEther (amountInWei - updatedTransaction.value)
                if receipt.status = 1 then
                  (pre ++ [.call .getTransaction,
                           .write (.transactionStatus (some ("Success"))),
                           .write (.validationError none),
                           .write (.remainingAmount none)]
                    ++ (if p.onPaymentSuccess then [Action.emit .paymentSuccess] else [])
                    ++ (if p.onTransactionLog then
                          [Action.emit (.transactionLog (.additionalPaymentSuccess
                            { transactionHash := txResponse.hash
                              fromAddr := updatedTransaction.fromAddr
                              toAddr := updatedTransaction.toAddr
                              amount := bigNumberToString updatedTransaction.value
                              nonce := updatedTransaction.nonce
                              gasLimit := natToString updatedTransaction.gasLimit
                              gasPrice := updatedTransaction.gasPrice.map natToString
                              maxFeePerGas := updatedTransaction.maxFeePerGas.map natToString
                              maxPriorityFeePerGas := updatedTransaction.maxPriorityFeePerGas.map natToString
                              chainId := updatedTransaction.chainId
                              initialAmount := p.amount
                              remainingAmount := updatedRemainingAmount }))]
                        else []),
                   .ok ())
                else
                  (pre ++ [.call .getTransaction, .write (.transactionStatus (some ("Failed")))],
                   .error (.jsError ("Payment transaction failed.")))

/-- The `catch` block of `handleAdditionalPayment` (lines 239-253);
the `remainingAmount` in the log is the shadowing string parameter. -/
def additionalCatch (p : Props) (r : String) (res : Except PayErr Unit) : List Action :=
  match res with
  | .ok _ => []
  | .error e =>
    [.write (.transactionStatus (some ("Failed"))), .write (.errorMsg (some (errMessage e)))]
    ++ (if p.onPaymentError then [Action.emit (.paymentError e)] else [])
    ++ (if p.onTransactionLog then
          [Action.emit (.transactionLog
            (.additionalPaymentError (errMessage e) p.amount (some r) p.recipient))]
        else [])

/-- `handleAdditionalPayment` (lines 182-257).  The argument is the
`remainingAmount` passed from the modal; `none` models the guarded
`=== null` early return of lines 183-186. -/
def handleAdditionalPayment (p : Props) (env : Env) (ra : Option String) : List Action :=
  match ra with
  | none => [.write (.errorMsg (some ("No remaining amount to pay.")))]
  | some r =>
    [Action.write (.isLoading true), Action.write (.transactionStatus (some ("Loading"))),
     Action.write (.errorMsg none), Action.write (.validationError none)]
    ++ (handleAdditionalPaymentBody p env r).1
    ++ additionalCatch p r (handleAdditionalPaymentBody p env r).2
    ++ [.write (.isLoading false)]

/-- `handleCloseModal` (lines 260-266): the explicit reset (the status
setter is invoked twice in the source). -/
def handleCloseModal : List Action :=
  [.write (.showConfirmModal false), .write (.transactionStatus none),
   .write (.paymentConfirmed false), .write (.transactionStatus none), .write (.txn none)]

/-! ## The rendered views (getModalContent and the top-level render) -/

/-- Abstraction of the `"Success"` branch of `getModalContent`
(lines 306-348): the validation-error block is shown iff
`validationError` is set; the pay-remainder button is rendered iff
`validationError` is set, and its click handler passes
`remainingAmount` (firing only when that is non-null); the actions row
is rendered iff `txn` is set, showing the explorer url when present. -/
structure SuccessView where
  validationError : Option String
  payRemainderShown : Bool
  payRemainderArg : Option String
  txnActions : Option (Option String)
deriving DecidableEq, Repr

/-- The four branches of `getModalContent` (lines 268-428). -/
inductive ModalContent where
  | loading (viewTxButton : Option String)
  | success (v : SuccessView)
  | failed (errorBlock : Option String)
  | confirm (confirmEnabled : Bool)
deriving DecidableEq, Repr

/-- `getModalContent`, as a function of the current state. In the
loading branch the explorer link hard-codes chain id 5 (line 298). -/
def getModalContent (st : ComponentState) : ModalContent :=
  if st.transactionStatus = some ("Loading") then
    .loading (st.txn.map (getExplorerUrl 5))
  else if st.transactionStatus = some ("Success") then
    .success
      { validationError := st.validationError
        payRemainderShown := st.validationError.isSome
        payRemainderArg := if st.validationError.isSome then st.remainingAmount else none
        txnActions := st.txn.map (fun _ => st.explorerUrl) }
  else if st.transactionStatus = some ("Failed") then
    .failed st.errorMsg
  else
    .confirm st.termsChecked

/-- The top-level render (lines 430-453): with a connected address the
payment button is shown with `disabled={isLoading}` and the modal is
mounted iff `showConfirmModal`; otherwise only `ConnectWallet`. -/
structure RenderView where
  connectWalletShown : Bool
  payButton : Option Bool
  modal : Option ModalContent
deriving DecidableEq, Repr

/-- The component output for a given address and state. -/
def render (address : Option String) (st : ComponentState) : RenderView :=
  match address with
  | some _ =>
    { connectWalletShown := false
      payButton := some st.isLoading
      modal := if st.showConfirmModal then some (getModalContent st) else none }
  | none => { connectWalletShown := true, payButton := none, modal := none }

/-! ## Trace computation lemmas -/

@[simp] lemma runTrace_nil (st : ComponentState) : runTrace st [] = st := rfl

@[simp] lemma runTrace_cons (st : ComponentState) (a : Action) (tr : List Action) :
    runTrace st (a :: tr) = runTrace (applyAction st a) tr := rfl

@[simp] lemma runTrace_append (st : ComponentState) (tr1 tr2 : List Action) :
    runTrace st (tr1 ++ tr2) = runTrace (runTrace st tr1) tr2 :=
  List.foldl_append _ _ _ _

@[simp] lemma applyAction_write (st : ComponentState) (w : StateWrite) :
    applyAction st (.write w) = applyWrite st w := rfl

@[simp] lemma applyAction_call (st : ComponentState) (c : ExtCall) :
    applyAction st (.call c) = st := rfl

@[simp] lemma applyAction_emit (st : ComponentState) (e : CallbackEvent) :
    applyAction st (.emit e) = st := rfl

@[simp] lemma emittedEvents_nil : emittedEvents [] = [] := rfl

@[simp] lemma emittedEvents_append (tr1 tr2 : List Action) :
    emittedEvents (tr1 ++ tr2) = emittedEvents tr1 ++ emittedEvents tr2 :=
  List.filterMap_append _ _ _

@[simp] lemma emittedEvents_write_cons (w : StateWrite) (tr : List Action) :
    emittedEvents (.write w :: tr) = emittedEvents tr := rfl

@[simp] lemma emittedEvents_call_cons (c : ExtCall) (tr : List Action) :
    emittedEvents (.call c :: tr) = emittedEvents tr := rfl

@[simp] lemma emittedEvents_emit_cons (e : CallbackEvent) (tr : List Action) :
    emittedEvents (.emit e :: tr) = e :: emittedEvents tr := rfl

/-- Emitting a callback does not change the state, so a conditional
emit block is invisible to `runTrace`. -/
@[simp] lemma runTrace_emit_if (st : ComponentState) (b : Bool) (e : CallbackEvent) :
    runTrace st (if b then [Action.emit e] else []) = st := by
  cases b <;> simp [runTrace, applyAction]

/-- A trace with no write to `txn` leaves `txn` unchanged. -/
lemma runTrace_txn_of_no_write (st : ComponentState) (tr : List Action)
    (h : ∀ v, Action.write (.txn v) ∉ tr) : (runTrace st tr).txn = st.txn := by
  induction tr generalizing st with
  | nil => rfl
  | cons a rest ih =>
    have hrest : ∀ v, Action.write (.txn v) ∉ rest := by
      intro v hv
      exact h v (List.mem_cons_of_mem _ hv)
    rw [runTrace_cons, ih _ hrest]
    cases a with
    | write w =>
      cases w with
      | txn v => exact (h v (List.mem_cons_self _ _)).elim
      | termsChecked b => rfl
      | isLoading b => rfl
      | showConfirmModal b => rfl
      | paymentConfirmed b => rfl
      | errorMsg v => rfl
      | validationError v => rfl
      | remainingAmount v => rfl
      | explorerUrl v => rfl
      | transactionStatus v => rfl
    | call c => rfl
    | emit e => rfl

/-! ## Arithmetic facts about the decimal helpers -/

/-- A character produced for a digit position: a decimal digit that is
neither the decimal point nor the minus sign. -/
def GoodDigit (c : Char) : Prop := c.isDigit = true ∧ c ≠ '.' ∧ c ≠ '-'

lemma digitVal_digitChar {d : Nat} (h : d < 10) : digitVal (digitChar d) = d := by
  interval_cases d <;> decide

lemma goodDigit_digitChar {d : Nat} (h : d < 10) : GoodDigit (digitChar d) := by
  interval_cases d <;> exact ⟨by decide, by decide, by decide⟩

lemma natOfDigits_from (a : Nat) (l : List Char) :
    l.foldl (fun x c => 10 * x + digitVal c) a = a * 10 ^ l.length + natOfDigits l := by
  induction l generalizing a with
  | nil => simp [natOfDigits]
  | cons c r ih =>
    simp only [List.foldl_cons, natOfDigits, List.length_cons]
    rw [ih (10 * a + digitVal c), ih (10 * 0 + digitVal c)]
    ring

lemma natOfDigits_append (l1 l2 : List Char) :
    natOfDigits (l1 ++ l2) = natOfDigits l1 * 10 ^ l2.length + natOfDigits l2 := by
  simp only [natOfDigits, List.foldl_append]
  exact natOfDigits_from _ l2

lemma natOfDigits_replicate_zero (k : Nat) : natOfDigits (List.replicate k '0') = 0 := by
  induction k with
  | zero => rfl
  | succ n ih =>
    have h : List.replicate (n + 1) '0' = ['0'] ++ List.replicate n '0' := by
      rw [List.replicate_succ]; rfl
    have h0 : natOfDigits ['0'] = 0 := by decide
    rw [h, natOfDigits_append, ih, h0]
    simp

lemma natOfDigits_natToDigitsAux {fuel n : Nat} (h : n ≤ fuel) :
    natOfDigits (natToDigitsAux fuel n) = n := by
  induction fuel generalizing n with
  | zero =>
    interval_cases n
    rfl
  | succ f ih =>
    rw [natToDigitsAux]
    by_cases hn : n = 0
    · simp [hn, natOfDigits]
    · rw [if_neg hn, natOfDigits_append]
      have h10 : n % 10 < 10 := Nat.mod_lt _ (by norm_num)
      have hdiv : n / 10 ≤ f := by omega
      rw [ih hdiv]
      have hone : natOfDigits [digitChar (n % 10)] = n % 10 := by
        show 10 * 0 + digitVal (digitChar (n % 10)) = n % 10
        rw [digitVal_digitChar h10]
        omega
      rw [hone]
      simp only [List.length_cons, List.length_nil, pow_one]
      omega

lemma natOfDigits_natDigits (n : Nat) : natOfDigits (natDigits n) = n := by
  unfold natDigits
  by_cases hn : n = 0
  · rw [if_pos hn, hn]; decide
  · rw [if_neg hn]; exact natOfDigits_natToDigitsAux le_rfl

lemma goodDigit_mem_natToDigitsAux {fuel n : Nat} {c : Char}
    (h : c ∈ natToDigitsAux fuel n) : GoodDigit c := by
  induction fuel generalizing n with
  | zero => simp [natToDigitsAux] at h
  | succ f ih =>
    rw [natToDigitsAux] at h
    by_cases hn : n = 0
    · rw [if_pos hn] at h; simp at h
    · rw [if_neg hn] at h
      rcases List.mem_append.mp h with h1 | h2
      · exact ih h1
      · have hc : c = digitChar (n % 10) := by simpa using h2
        subst hc
        exact goodDigit_digitChar (Nat.mod_lt _ (by norm_num))

lemma goodDigit_mem_natDigits {n : Nat} {c : Char} (h : c ∈ natDigits n) : GoodDigit c := by
  unfold natDigits at h
  by_cases hn : n = 0
  · rw [if_pos hn] at h
    simp at h
    subst h
    exact ⟨by decide, by decide, by decide⟩
  · rw [if_neg hn] at h
    exact goodDigit_mem_natToDigitsAux h

lemma natDigits_ne_nil (n : Nat) : natDigits n ≠ [] := by
  unfold natDigits
  by_cases hn : n = 0
  · rw [if_pos hn]; simp
  · rw [if_neg hn]
    cases hf : n with
    | zero => exact absurd hf hn
    | succ m =>
      rw [natToDigitsAux, if_neg (by omega : m + 1 ≠ 0)]
      simp

lemma natToDigitsAux_length_le {fuel n k : Nat} (h : n < 10 ^ k) :
    (natToDigitsAux fuel n).length ≤ k := by
  induction fuel generalizing n k with
  | zero => simp [natToDigitsAux]
  | succ f ih =>
    rw [natToDigitsAux]
    by_cases hn : n = 0
    · rw [if_pos hn]; simp
    · rw [if_neg hn]
      cases k with
      | zero =>
        exfalso
        simp only [pow_zero] at h
        omega
      | succ j =>
        have h2 : n < 10 * 10 ^ j := by
          rw [pow_succ] at h
          omega
        have hdiv : n / 10 < 10 ^ j := Nat.div_lt_of_lt_mul h2
        have := ih hdiv
        simp only [List.length_append, List.length_cons, List.length_nil]
        omega

lemma natDigits_length_le {n k : Nat} (hk : 0 < k) (h : n < 10 ^ k) :
    (natDigits n).length ≤ k := by
  unfold natDigits
  by_cases hn : n = 0
  · rw [if_pos hn]; simpa using hk
  · rw [if_neg hn]; exact natToDigitsAux_length_le h

/-! ## Facts about trimming, splitting and padding -/

lemma dropWhile_idem (p : Char → Bool) (l : List Char) :
    (l.dropWhile p).dropWhile p = l.dropWhile p := by
  induction l with
  | nil => rfl
  | cons c rest ih =>
    rw [List.dropWhile_cons]
    by_cases hc : p c = true
    · rw [if_pos hc]; exact ih
    · rw [if_neg hc, List.dropWhile_cons, if_neg hc]

lemma trimTrailingZeros_idem (l : List Char) :
    trimTrailingZeros (trimTrailingZeros l) = trimTrailingZeros l := by
  unfold trimTrailingZeros
  rw [List.reverse_reverse, dropWhile_idem]

lemma trimTrailingZeros_spec (l : List Char) :
    l = trimTrailingZeros l ++ List.replicate (l.length - (trimTrailingZeros l).length) '0' := by
  have h1 := List.takeWhile_append_dropWhile (fun c : Char => c == '0') l.reverse
  have h2 : (l.reverse.takeWhile (fun c : Char => c == '0')) =
      List.replicate ((l.reverse.takeWhile (fun c : Char => c == '0'))).length '0' := by
    apply List.eq_replicate_of_mem
    intro b hb
    have hb2 := List.mem_takeWhile_imp hb
    simpa using hb2
  have hlen : (trimTrailingZeros l).length
      = ((l.reverse.dropWhile (fun c : Char => c == '0'))).length := by
    unfold trimTrailingZeros
    rw [List.length_reverse]
  have hlen2 : ((l.reverse.takeWhile (fun c : Char => c == '0'))).length
      = l.length - (trimTrailingZeros l).length := by
    have hl := congrArg List.length h1
    simp only [List.length_append, List.length_reverse] at hl
    omega
  calc l = l.reverse.reverse := (List.reverse_reverse l).symm
    _ = ((l.reverse.takeWhile (fun c : Char => c == '0'))
          ++ (l.reverse.dropWhile (fun c : Char => c == '0'))).reverse := by rw [h1]
    _ = ((l.reverse.dropWhile (fun c : Char => c == '0'))).reverse
          ++ ((l.reverse.takeWhile (fun c : Char => c == '0'))).reverse := by
        rw [List.reverse_append]
    _ = trimTrailingZeros l ++ List.replicate (l.length - (trimTrailingZeros l).length) '0' := by
        unfold trimTrailingZeros
        rw [h2, List.reverse_replicate, hlen2]
        rw [List.length_reverse, ← hlen]

lemma trimTrailingZeros_length_le (l : List Char) :
    (trimTrailingZeros l).length ≤ l.length := by
  have h := congrArg List.length (trimTrailingZeros_spec l)
  simp only [List.length_append, List.length_replicate] at h
  omega

lemma mem_of_mem_dropWhile {c : Char} {p : Char → Bool} {l : List Char}
    (h : c ∈ l.dropWhile p) : c ∈ l := by
  induction l with
  | nil => simp at h
  | cons a rest ih =>
    rw [List.dropWhile_cons] at h
    by_cases ha : p a = true
    · rw [if_pos ha] at h
      exact List.mem_cons_of_mem _ (ih h)
    · rw [if_neg ha] at h
      exact h

lemma mem_trimTrailingZeros {c : Char} {l : List Char}
    (h : c ∈ trimTrailingZeros l) : c ∈ l := by
  unfold trimTrailingZeros at h
  rw [List.mem_reverse] at h
  exact List.mem_reverse.mp (mem_of_mem_dropWhile h)

lemma splitOnDot_no_dot {l : List Char} (h : '.' ∉ l) : splitOnDot l = [l] := by
  induction l with
  | nil => rfl
  | cons c rest ih =>
    have hc : ¬ (c = '.') := fun hh => h (hh ▸ List.mem_cons_self _ _)
    have hrest : '.' ∉ rest := fun hh => h (List.mem_cons_of_mem _ hh)
    simp only [splitOnDot, if_neg hc, ih hrest]

lemma splitOnDot_append_dot {a b : List Char} (ha : '.' ∉ a) :
    splitOnDot (a ++ '.' :: b) = a :: splitOnDot b := by
  induction a with
  | nil => simp [splitOnDot]
  | cons c rest ih =>
    have hc : ¬ (c = '.') := fun hh => ha (hh ▸ List.mem_cons_self _ _)
    have hrest : '.' ∉ rest := fun hh => ha (List.mem_cons_of_mem _ hh)
    rw [List.cons_append]
    simp only [splitOnDot, if_neg hc]
    rw [ih hrest]

/-! ## The round trip: parseEther of formatEther -/

lemma goodDigit_mem_fracPart {v : Nat} {c : Char} (h : c ∈ fracPart v) : GoodDigit c := by
  unfold fracPart at h
  by_cases ht : trimTrailingZeros (fracPadded v) = []
  · rw [if_pos ht] at h
    simp at h
    subst h
    exact ⟨by decide, by decide, by decide⟩
  · rw [if_neg ht] at h
    have h2 : c ∈ fracPadded v := mem_trimTrailingZeros h
    unfold fracPadded at h2
    rcases List.mem_append.mp h2 with h3 | h3
    · have hc : c = '0' := List.eq_of_mem_replicate h3
      subst hc
      exact ⟨by decide, by decide, by decide⟩
    · exact goodDigit_mem_natDigits h3

lemma fracPart_ne_nil (v : Nat) : fracPart v ≠ [] := by
  unfold fracPart
  by_cases ht : trimTrailingZeros (fracPadded v) = []
  · rw [if_pos ht]; simp
  · rw [if_neg ht]; exact ht

lemma mod_E18_lt (v : Nat) : v % E18 < 10 ^ 18 := by
  have h : v % E18 < E18 := Nat.mod_lt _ (by unfold E18; positivity)
  simpa [E18] using h

lemma fracPadded_length (v : Nat) : (fracPadded v).length = 18 := by
  unfold fracPadded
  have hd : (natDigits (v % E18)).length ≤ 18 :=
    natDigits_length_le (by norm_num) (mod_E18_lt v)
  simp only [List.length_append, List.length_replicate]
  omega

lemma natOfDigits_fracPadded (v : Nat) : natOfDigits (fracPadded v) = v % E18 := by
  unfold fracPadded
  rw [natOfDigits_append, natOfDigits_replicate_zero, natOfDigits_natDigits]
  simp

lemma trim_fracPart_length_le (v : Nat) : (trimTrailingZeros (fracPart v)).length ≤ 18 := by
  unfold fracPart
  by_cases ht : trimTrailingZeros (fracPadded v) = []
  · rw [if_pos ht]
    decide
  · rw [if_neg ht, trimTrailingZeros_idem]
    have h := trimTrailingZeros_length_le (fracPadded v)
    rw [fracPadded_length] at h
    exact h

lemma frac_parse (v : Nat) :
    natOfDigits (padTo18 (if trimTrailingZeros (fracPart v) = [] then ['0']
      else trimTrailingZeros (fracPart v))) = v % E18 := by
  by_cases ht : trimTrailingZeros (fracPadded v) = []
  · have h1 : fracPart v = ['0'] := by rw [fracPart, if_pos ht]
    have h2 : trimTrailingZeros (['0'] : List Char) = ([] : List Char) := by decide
    have hmod : v % E18 = 0 := by
      have hfp := natOfDigits_fracPadded v
      rw [trimTrailingZeros_spec (fracPadded v), ht] at hfp
      rw [List.nil_append, natOfDigits_replicate_zero] at hfp
      omega
    rw [h1, h2, if_pos rfl, hmod]
    decide
  · have h1 : fracPart v = trimTrailingZeros (fracPadded v) := by rw [fracPart, if_neg ht]
    rw [h1, trimTrailingZeros_idem, if_neg ht]
    have hlen := fracPadded_length v
    have hsp := trimTrailingZeros_spec (fracPadded v)
    rw [hlen] at hsp
    unfold padTo18
    rw [← hsp]
    exact natOfDigits_fracPadded v

lemma parseBody_eq_true {l : List Char} (hne : l ≠ [])
    (hall : ∀ c ∈ l, GoodDigit c ∨ c = '.') : parseBody l = true := by
  unfold parseBody
  rw [Bool.and_eq_true]
  refine ⟨?_, ?_⟩
  · cases l with
    | nil => exact absurd rfl hne
    | cons a r => rfl
  · rw [List.all_eq_true]
    intro c hc
    unfold isDigitOrDot
    rcases hall c hc with h | h
    · rw [h.1]
      rfl
    · subst h
      rfl

lemma not_dot_natDigits (n : Nat) : '.' ∉ natDigits n :=
  fun h => (goodDigit_mem_natDigits h).2.1 rfl

lemma not_dot_fracPart (v : Nat) : '.' ∉ fracPart v :=
  fun h => (goodDigit_mem_fracPart h).2.1 rfl

lemma formatBody_good (v : Nat) :
    ∀ c ∈ natDigits (v / E18) ++ '.' :: fracPart v, GoodDigit c ∨ c = '.' := by
  intro c hc
  rcases List.mem_append.mp hc with h | h
  · exact Or.inl (goodDigit_mem_natDigits h)
  · rcases List.mem_cons.mp h with h | h
    · exact Or.inr h
    · exact Or.inl (goodDigit_mem_fracPart h)

lemma formatBody_head_ne (v : Nat) :
    ¬ ((natDigits (v / E18) ++ '.' :: fracPart v).head? = some '-') := by
  obtain ⟨c, W, hW⟩ := List.exists_cons_of_ne_nil (natDigits_ne_nil (v / E18))
  rw [hW]
  intro h
  have hc : c = '-' := by simpa using h
  have hmem : c ∈ natDigits (v / E18) := by
    rw [hW]
    exact List.mem_cons_self _ _
  have hg := goodDigit_mem_natDigits hmem
  rw [hc] at hg
  exact hg.2.2 rfl

lemma formatBody_ne_dot (v : Nat) :
    natDigits (v / E18) ++ '.' :: fracPart v ≠ ['.'] := by
  intro h
  have hlen := congrArg List.length h
  simp only [List.length_append, List.length_cons, List.length_nil] at hlen
  have h1 := List.length_pos.mpr (natDigits_ne_nil (v / E18))
  omega

lemma parseEtherPos_format (v : Nat) (neg : Bool) :
    parseEtherPos (natDigits (v / E18) ++ '.' :: fracPart v) neg
      = .ok (if neg then -(v : Int) else (v : Int)) := by
  have hW := natDigits_ne_nil (v / E18)
  have hF := fracPart_ne_nil v
  have hsplit : splitOnDot (natDigits (v / E18) ++ '.' :: fracPart v)
      = [natDigits (v / E18), fracPart v] := by
    rw [splitOnDot_append_dot (not_dot_natDigits _), splitOnDot_no_dot (not_dot_fracPart v)]
  have hlen18 : ¬ (18 < (trimTrailingZeros (fracPart v)).length) := by
    have h := trim_fracPart_length_le v
    omega
  have hv : natOfDigits (natDigits (v / E18)) * E18
      + natOfDigits (padTo18 (if trimTrailingZeros (fracPart v) = [] then ['0']
          else trimTrailingZeros (fracPart v))) = v := by
    rw [natOfDigits_natDigits, frac_parse, Nat.mul_comm]
    exact Nat.div_add_mod v E18
  unfold parseEtherPos
  rw [if_neg (formatBody_ne_dot v)]
  simp only [hsplit, List.length_cons, List.length_nil, List.headD_cons, List.drop_succ_cons,
    List.drop_zero, hW, hF, hlen18, if_false, hv]
  norm_num

lemma decimalMatch_format_nonneg (v : Nat) :
    decimalMatch (natDigits (v / E18) ++ '.' :: fracPart v) = true := by
  unfold decimalMatch
  rw [if_neg (formatBody_head_ne v)]
  exact parseBody_eq_true
    (fun h => natDigits_ne_nil (v / E18) (List.append_eq_nil.mp h).1)
    (formatBody_good v)

/-- The value-level round trip: formatting any wei value and parsing it
back recovers the value exactly. -/
lemma parseEtherChars_formatEtherChars (w : Int) :
    parseEtherChars (formatEtherChars w) = .ok w := by
  by_cases hw : w < 0
  · have hchars : formatEtherChars w
        = '-' :: (natDigits (w.natAbs / E18) ++ '.' :: fracPart w.natAbs) := by
      unfold formatEtherChars
      rw [if_pos hw]
      rfl
    have hmatch : decimalMatch
        ('-' :: (natDigits (w.natAbs / E18) ++ '.' :: fracPart w.natAbs)) = true := by
      unfold decimalMatch
      simp only [List.head?_cons, Option.some.injEq]
      rw [if_pos trivial]
      simp only [List.tail_cons]
      exact parseBody_eq_true
        (fun h => natDigits_ne_nil (w.natAbs / E18) (List.append_eq_nil.mp h).1)
        (formatBody_good w.natAbs)
    rw [hchars]
    unfold parseEtherChars
    rw [if_pos hmatch]
    simp only [List.head?_cons, Option.some.injEq]
    rw [if_pos trivial]
    simp only [List.tail_cons]
    rw [parseEtherPos_format w.natAbs true, if_pos rfl]
    exact congrArg Except.ok (by omega)
  · have hchars : formatEtherChars w
        = natDigits (w.natAbs / E18) ++ '.' :: fracPart w.natAbs := by
      unfold formatEtherChars
      rw [if_neg hw]
      rfl
    rw [hchars]
    unfold parseEtherChars
    rw [if_pos (decimalMatch_format_nonneg w.natAbs), if_neg (formatBody_head_ne w.natAbs)]
    rw [parseEtherPos_format w.natAbs false, if_neg (by simp)]
    exact congrArg Except.ok (by omega)

/-- The round trip at the `String` level. -/
lemma parseEther_formatEther (w : Int) : parseEther (formatEther w) = .ok w :=
  parseEtherChars_formatEtherChars w

lemma formatEther_ne_empty (w : Int) : formatEther w ≠ "" := by
  intro h
  have hd : formatEtherChars w = [] := congrArg String.data h
  unfold formatEtherChars at hd
  have hlen := congrArg List.length hd
  simp only [List.length_append, List.length_cons, List.length_nil] at hlen
  have h1 := List.length_pos.mpr (natDigits_ne_nil (w.natAbs / E18))
  omega

lemma formatEther_injective {a b : Int} (h : formatEther a = formatEther b) : a = b := by
  have ha := parseEther_formatEther a
  have hb := parseEther_formatEther b
  rw [h, hb] at ha
  exact (Except.ok.inj ha).symm

/-! ## Handler-level helper lemmas -/

@[simp] lemma write_mem_emit_ite (w : StateWrite) (b : Bool) (e : CallbackEvent) :
    (Action.write w ∈ (if b then [Action.emit e] else [])) ↔ False := by
  cases b <;> simp

lemma runTrace_paymentCatch_error (p : Props) (e : PayErr) (st : ComponentState) :
    runTrace st (paymentCatch p (.error e))
      = { st with transactionStatus := some ("Failed"), errorMsg := some (errMessage e) } := by
  unfold paymentCatch
  cases p.onPaymentError <;> cases p.onTransactionLog <;>
    simp [runTrace, applyAction, applyWrite]

lemma emittedEvents_paymentCatch_error (p : Props) (e : PayErr) :
    emittedEvents (paymentCatch p (.error e))
      = (if p.onPaymentError then [CallbackEvent.paymentError e] else [])
        ++ (if p.onTransactionLog then
              [CallbackEvent.transactionLog (.error (errMessage e) p.amount p.recipient)]
            else []) := by
  unfold paymentCatch
  cases p.onPaymentError <;> cases p.onTransactionLog <;> simp [emittedEvents]

@[simp] lemma paymentCatch_ok (p : Props) : paymentCatch p (.ok ()) = [] := rfl

lemma runTrace_additionalCatch_error (p : Props) (r : String) (e : PayErr)
    (st : ComponentState) :
    runTrace st (additionalCatch p r (.error e))
      = { st with transactionStatus := some ("Failed"), errorMsg := some (errMessage e) } := by
  unfold additionalCatch
  cases p.onPaymentError <;> cases p.onTransactionLog <;>
    simp [runTrace, applyAction, applyWrite]

lemma emittedEvents_additionalCatch_error (p : Props) (r : String) (e : PayErr) :
    emittedEvents (additionalCatch p r (.error e))
      = (if p.onPaymentError then [CallbackEvent.paymentError e] else [])
        ++ (if p.onTransactionLog then
              [CallbackEvent.transactionLog
                (.additionalPaymentError (errMessage e) p.amount (some r) p.recipient)]
            else []) := by
  unfold additionalCatch
  cases p.onPaymentError <;> cases p.onTransactionLog <;> simp [emittedEvents]

@[simp] lemma additionalCatch_ok (p : Props) (r : String) :
    additionalCatch p r (.ok ()) = [] := rfl

lemma paymentAfterSend_no_txn_write (p : Props) (env : Env) (vw : Int) (txr : TxResponse) :
    ∀ w, Action.write (.txn w) ∉ (paymentAfterSend p env vw txr).1 := by
  intro w
  unfold paymentAfterSend
  rcases env.wait with e | rec
  · simp
  · rcases env.getTransaction with e | tx
    · simp
    · by_cases hs : rec.status = 1
      · rcases env.getNetwork with e | net <;>
          by_cases hm : formatEther tx.value ≠ p.amount <;>
            simp [hs, hm]
      · by_cases hm : formatEther tx.value ≠ p.amount <;> simp [hs, hm]

lemma paymentCatch_no_txn_write (p : Props) (res : Except PayErr Unit) :
    ∀ w, Action.write (.txn w) ∉ paymentCatch p res := by
  intro w
  unfold paymentCatch
  cases res with
  | ok u => simp
  | error e => cases p.onPaymentError <;> cases p.onTransactionLog <;> simp

lemma handleAdditionalPaymentBody_no_txn_write (p : Props) (env : Env) (r : String) :
    ∀ w, Action.write (.txn w) ∉ (handleAdditionalPaymentBody p env r).1 := by
  intro w
  unfold handleAdditionalPaymentBody
  cases hsdk : env.sdk
  · simp
  · rcases hr : parseEther r with e | rv
    · simp
    · cases hsig : env.signer
      · simp
      · cases hprov : env.provider
        · simp
        · rcases hsend : env.sendTransaction with e | txr
          · simp
          · rcases hwait : env.wait with e | rec
            · simp
            · rcases hget : env.getTransaction with e | tx
              · simp
              · rcases ha : parseEther p.amount with e | av
                · simp
                · by_cases hs : rec.status = 1 <;> simp [hs]

lemma additionalCatch_no_txn_write (p : Props) (r : String) (res : Except PayErr Unit) :
    ∀ w, Action.write (.txn w) ∉ additionalCatch p r res := by
  intro w
  unfold additionalCatch
  cases res with
  | ok u => simp
  | error e => cases p.onPaymentError <;> cases p.onTransactionLog <;> simp

lemma handleAdditionalPayment_no_txn_write (p : Props) (env : Env) (ra : Option String) :
    ∀ w, Action.write (.txn w) ∉ handleAdditionalPayment p env ra := by
  intro w
  unfold handleAdditionalPayment
  cases ra with
  | none => simp
  | some r =>
    intro hmem
    simp only [List.append_assoc, List.mem_append, List.mem_cons, List.mem_singleton] at hmem
    rcases hmem with h | h | h
    · rcases h with h | h | h | h | h <;> simp_all
    · exact handleAdditionalPaymentBody_no_txn_write p env r w h
    · rcases h with h | h
      · exact additionalCatch_no_txn_write p r _ w h
      · simp_all

lemma paymentAfterSend_no_loading_write (p : Props) (env : Env) (vw : Int) (txr : TxResponse) :
    ∀ b, Action.write (.isLoading b) ∉ (paymentAfterSend p env vw txr).1 := by
  intro b
  unfold paymentAfterSend
  rcases env.wait with e | rec
  · simp
  · rcases env.getTransaction with e | tx
    · simp
    · by_cases hs : rec.status = 1
      · rcases env.getNetwork with e | net <;>
          by_cases hm : formatEther tx.value ≠ p.amount <;>
            simp [hs, hm]
      · by_cases hm : formatEther tx.value ≠ p.amount <;> simp [hs, hm]

lemma handlePaymentBody_no_loading_write (p : Props) (env : Env) :
    ∀ b, Action.write (.isLoading b) ∉ (handlePaymentBody p env).1 := by
  intro b
  unfold handlePaymentBody
  cases hsdk : env.sdk
  · simp
  · rcases hp : parseEther p.amount with e | vw
    · simp
    · cases hsig : env.signer
      · simp
      · cases hprov : env.provider
        · simp
        · rcases hsend : env.sendTransaction with e | txr
          · simp
          · simp only [Bool.not_true, Bool.false_eq_true, if_false, List.mem_append,
              List.mem_cons, List.mem_singleton]
            intro h
            rcases h with h | h
            · rcases h with h | h | h <;> simp_all
            · exact paymentAfterSend_no_loading_write p env vw txr b h

lemma paymentCatch_no_loading_write (p : Props) (res : Except PayErr Unit) :
    ∀ b, Action.write (.isLoading b) ∉ paymentCatch p res := by
  intro b
  unfold paymentCatch
  cases res with
  | ok u => simp
  | error e => cases p.onPaymentError <;> cases p.onTransactionLog <;> simp

lemma handleAdditionalPaymentBody_no_loading_write (p : Props) (env : Env) (r : String) :
    ∀ b, Action.write (.isLoading b) ∉ (handleAdditionalPaymentBody p env r).1 := by
  intro b
  unfold handleAdditionalPaymentBody
  cases hsdk : env.sdk
  · simp
  · rcases hr : parseEther r with e | rv
    · simp
    · cases hsig : env.signer
      · simp
      · cases hprov : env.provider
        · simp
        · rcases hsend : env.sendTransaction with e | txr
          · simp
          · rcases hwait : env.wait with e | rec
            · simp
            · rcases hget : env.getTransaction with e | tx
              · simp
              · rcases ha : parseEther p.amount with e | av
                · simp
                · by_cases hs : rec.status = 1 <;> simp [hs]

lemma additionalCatch_no_loading_write (p : Props) (r : String) (res : Except PayErr Unit) :
    ∀ b, Action.write (.isLoading b) ∉ additionalCatch p r res := by
  intro b
  unfold additionalCatch
  cases res with
  | ok u => simp
  | error e => cases p.onPaymentError <;> cases p.onTransactionLog <;> simp

/-! ## Concrete fixtures for witnesses and counterexamples -/

/-- The initial values of all `useState` cells. -/
def initState : ComponentState :=
  { termsChecked := false, isLoading := false, showConfirmModal := false,
    paymentConfirmed := false, errorMsg := none, validationError := none,
    remainingAmount := none, txn := none, explorerUrl := none, transactionStatus := none }

/-- Sample props with every callback supplied and a canonical amount. -/
def sampleProps : Props :=
  { recipient := "0xRecipient", amount := "1.0", onPaymentSuccess := true,
    onPaymentError := true, onTransactionLog := true }

/-- A mined transaction carrying the given transferred value. -/
def sampleMined (value : Int) : MinedTx :=
  { value := value, fromAddr := "0xSender", toAddr := "0xRecipient", nonce := 0,
    gasLimit := 21000, gasPrice := some 50000000000, maxFeePerGas := none,
    maxPriorityFeePerGas := none, chainId := 1 }

/-- An oracle in which every collaborator call succeeds, the receipt
reports status 1 and the mined transaction carries `value` wei. -/
def okEnv (value : Int) : Env :=
  { sdk := true, signer := true, provider := true,
    sendTransaction := .ok { hash := "0xabc" }, wait := .ok { status := 1 },
    getTransaction := .ok (sampleMined value), getNetwork := .ok { chainId := 1 } }

/-- An oracle with no connected wallet SDK. -/
def noSdkEnv : Env :=
  { sdk := false, signer := false, provider := false,
    sendTransaction := .error (.nonError 0), wait := .error (.nonError 0),
    getTransaction := .error (.nonError 0), getNetwork := .error (.nonError 0) }

/-! ## The claims -/

/-- C1: for every oracle outcome, an error thrown anywhere inside the
try block of the submit or of the pay-remainder operation is caught by
the corresponding catch block: the final transaction status is the
failed state and, when `onPaymentError` is supplied, it is invoked with
exactly the thrown error object.  (Both operations are total functions
of the oracle, so no error reaches the caller.) -/
theorem C1_errors_caught (p : Props) (env : Env) (st : ComponentState) (e : PayErr)
    (r : String) :
    ((handlePaymentBody p env).2 = .error e →
      (runTrace st (handlePayment p env)).transactionStatus = some ("Failed")
      ∧ (p.onPaymentError = true →
          CallbackEvent.paymentError e ∈ emittedEvents (handlePayment p env)))
    ∧ ((handleAdditionalPaymentBody p env r).2 = .error e →
      (runTrace st (handleAdditionalPayment p env (some r))).transactionStatus = some ("Failed")
      ∧ (p.onPaymentError = true →
          CallbackEvent.paymentError e
            ∈ emittedEvents (handleAdditionalPayment p env (some r)))) := by
  constructor
  · intro h
    constructor
    · unfold handlePayment
      rw [h]
      simp only [runTrace_append, runTrace_paymentCatch_error]
      simp [runTrace, applyAction, applyWrite]
    · intro hpe
      unfold handlePayment
      rw [h]
      simp [emittedEvents_paymentCatch_error, hpe]
  · intro h
    constructor
    · simp only [handleAdditionalPayment]
      rw [h]
      simp only [runTrace_append, runTrace_additionalCatch_error]
      simp [runTrace, applyAction, applyWrite]
    · intro hpe
      simp only [handleAdditionalPayment]
      rw [h]
      simp [emittedEvents_additionalCatch_error, hpe]

/-- Witness for C1 at the no-SDK oracle: the submit try block throws
the wallet error, the status ends failed and the error is forwarded. -/
theorem C1_errors_caught_witness :
    (handlePaymentBody sampleProps noSdkEnv).2
        = .error (.jsError ("Please connect your wallet first."))
    ∧ ((runTrace initState (handlePayment sampleProps noSdkEnv)).transactionStatus
          = some ("Failed")
        ∧ (sampleProps.onPaymentError = true →
            CallbackEvent.paymentError (.jsError ("Please connect your wallet first."))
              ∈ emittedEvents (handlePayment sampleProps noSdkEnv))) :=
  ⟨by decide,
   (C1_errors_caught sampleProps noSdkEnv initState
      (.jsError ("Please connect your wallet first.")) ("1.0")).1 (by decide)⟩

/-- C4: submitting while no wallet SDK is connected ends in the failed
status, forwards the wallet-not-connected error to `onPaymentError`
when supplied, and never invokes `onPaymentSuccess` — for every
recipient and amount, since the SDK check precedes amount parsing. -/
theorem C4_no_wallet (p : Props) (env : Env) (st : ComponentState)
    (h : env.sdk = false) :
    (runTrace st (handlePayment p env)).transactionStatus = some ("Failed")
    ∧ (p.onPaymentError = true →
        CallbackEvent.paymentError (.jsError ("Please connect your wallet first."))
          ∈ emittedEvents (handlePayment p env))
    ∧ CallbackEvent.paymentSuccess ∉ emittedEvents (handlePayment p env) := by
  have hbody : handlePaymentBody p env
      = ([], .error (.jsError ("Please connect your wallet first."))) := by
    unfold handlePaymentBody
    rw [h]
    rfl
  refine ⟨?_, ?_, ?_⟩
  · unfold handlePayment
    rw [hbody]
    simp only [runTrace_append, runTrace_paymentCatch_error]
    simp [runTrace, applyAction, applyWrite]
  · intro hpe
    unfold handlePayment
    rw [hbody]
    simp [emittedEvents_paymentCatch_error, hpe]
  · unfold handlePayment
    rw [hbody]
    simp only [emittedEvents_append, emittedEvents_paymentCatch_error]
    cases hpe : p.onPaymentError <;> cases htl : p.onTransactionLog <;>
      simp [emittedEvents, paymentPrologue]

/-- Witness for C4 at the no-SDK oracle. -/
theorem C4_no_wallet_witness :
    noSdkEnv.sdk = false
    ∧ ((runTrace initState (handlePayment sampleProps noSdkEnv)).transactionStatus
          = some ("Failed")
        ∧ (sampleProps.onPaymentError = true →
            CallbackEvent.paymentError (.jsError ("Please connect your wallet first."))
              ∈ emittedEvents (handlePayment sampleProps noSdkEnv))
        ∧ CallbackEvent.paymentSuccess ∉ emittedEvents (handlePayment sampleProps noSdkEnv)) :=
  ⟨by decide, C4_no_wallet sampleProps noSdkEnv initState (by decide)⟩

/-- An all-success oracle except that `getTransaction` rejects. -/
def getTxFailEnv : Env :=
  { okEnv 1000000000000000000 with getTransaction := .error (.jsError ("provider lookup failed")) }

/-- An all-success oracle except that `getNetwork` rejects. -/
def getNetFailEnv : Env :=
  { okEnv 1000000000000000000 with getNetwork := .error (.jsError ("network lookup failed")) }

/-- C9: there are submits whose broadcast confirms with receipt status
1 and yet end failed, because a provider lookup throws after or before
the status check: one run where `getTransaction` (awaited before the
status check) rejects, and one where `getNetwork` (awaited after it)
rejects.  In both, `onPaymentError` fires and `onPaymentSuccess` never
does, so a confirmed on-chain success is reported as failure. -/
theorem C9_confirmed_success_reported_failed :
    (getTxFailEnv.wait = .ok { status := 1 }
      ∧ (runTrace initState (handlePayment sampleProps getTxFailEnv)).transactionStatus
          = some ("Failed")
      ∧ CallbackEvent.paymentError (.jsError ("provider lookup failed"))
          ∈ emittedEvents (handlePayment sampleProps getTxFailEnv)
      ∧ CallbackEvent.paymentSuccess ∉ emittedEvents (handlePayment sampleProps getTxFailEnv))
    ∧ (getNetFailEnv.wait = .ok { status := 1 }
      ∧ (runTrace initState (handlePayment sampleProps getNetFailEnv)).transactionStatus
          = some ("Failed")
      ∧ CallbackEvent.paymentError (.jsError ("network lookup failed"))
          ∈ emittedEvents (handlePayment sampleProps getNetFailEnv)
      ∧ CallbackEvent.paymentSuccess
          ∉ emittedEvents (handlePayment sampleProps getNetFailEnv)) := by
  decide

/-- C3 (amended): for every decimal amount string accepted by
`parseEther`, converting to smallest units and formatting back yields a
decimal string denoting the same value: it re-parses to exactly the
original smallest-unit integer (the round trip is exact at the value
level, though not verbatim at the string level). -/
theorem C3_roundtrip_value (s : String) (v : Int) (h : parseEther s = .ok v) :
    (parseEther s).map formatEther = .ok (formatEther v)
    ∧ parseEther (formatEther v) = parseEther s := by
  constructor
  · rw [h]
    rfl
  · rw [h, parseEther_formatEther]

/-- Witness for C3 at the amount string "1.5". -/
theorem C3_roundtrip_value_witness :
    parseEther ("1.5") = .ok 1500000000000000000
    ∧ ((parseEther ("1.5")).map formatEther = .ok (formatEther 1500000000000000000)
        ∧ parseEther (formatEther 1500000000000000000) = parseEther ("1.5")) :=
  ⟨by decide, C3_roundtrip_value ("1.5") 1500000000000000000 (by decide)⟩

/-- Counterexample to C3 as stated: the round trip does not return the
original string.  `"1"` parses to `10^18` wei but formats back to
`"1.0"`, and `"1.50"` formats back to `"1.5"`. -/
theorem C3_string_roundtrip_cex :
    parseEther ("1") = .ok 1000000000000000000
    ∧ formatEther 1000000000000000000 = "1.0"
    ∧ ("1.0" : String) ≠ ("1" : String)
    ∧ parseEther ("1.50") = .ok 1500000000000000000
    ∧ formatEther 1500000000000000000 = "1.5"
    ∧ ("1.5" : String) ≠ ("1.50" : String) := by
  decide

/-- C6: once `sendTransaction` resolves, the hash is written to `txn`
immediately — the trace of the submit is exactly the prologue, the send
call, the `txn` write, the awaited `wait` call, and then the rest — and
the stored hash survives every later outcome (the final state maps
`txn` to the hash whatever `wait`, `getTransaction`, the receipt status
and `getNetwork` do); the pay-remainder operation never writes `txn`;
and the explicit reset of `handleCloseModal` is what clears it. -/
theorem C6_txn_hash (p : Props) (env env2 : Env) (st st2 : ComponentState)
    (txr : TxResponse) (v : Int) (ra : Option String)
    (hsdk : env.sdk = true) (hsig : env.signer = true) (hprov : env.provider = true)
    (hparse : parseEther p.amount = .ok v) (hsend : env.sendTransaction = .ok txr) :
    (handlePayment p env
        = paymentPrologue
          ++ ([Action.call (.sendTransaction p.recipient v), Action.write (.txn (some txr.hash)),
               Action.call .wait]
              ++ ((paymentAfterSend p env v txr).1
                  ++ (paymentCatch p (paymentAfterSend p env v txr).2
                      ++ [Action.write (.isLoading false)]))))
    ∧ (runTrace st (handlePayment p env)).txn = some txr.hash
    ∧ (∀ w, Action.write (.txn w) ∉ handleAdditionalPayment p env2 ra)
    ∧ runTrace st2 handleCloseModal
        = { st2 with
            showConfirmModal := false
            transactionStatus := none
            paymentConfirmed := false
            txn := none } := by
  obtain ⟨sdk, sig, prov, send, wai, gtx, gnet⟩ := env
  simp only at hsdk hsig hprov hsend
  subst hsdk hsig hprov hsend
  have hbody : handlePaymentBody p ⟨true, true, true, .ok txr, wai, gtx, gnet⟩
      = ([Action.call (.sendTransaction p.recipient v), Action.write (.txn (some txr.hash)),
          Action.call .wait]
          ++ (paymentAfterSend p ⟨true, true, true, .ok txr, wai, gtx, gnet⟩ v txr).1,
         (paymentAfterSend p ⟨true, true, true, .ok txr, wai, gtx, gnet⟩ v txr).2) := by
    unfold handlePaymentBody
    simp only [hparse]
    rfl
  refine ⟨?_, ?_, ?_, ?_⟩
  · unfold handlePayment
    rw [hbody]
    simp [List.append_assoc]
  · unfold handlePayment
    rw [hbody]
    have h1 : ∀ s : ComponentState,
        (runTrace s (paymentAfterSend p ⟨true, true, true, .ok txr, wai, gtx, gnet⟩ v txr).1).txn
          = s.txn :=
      fun s => runTrace_txn_of_no_write s _ (paymentAfterSend_no_txn_write p _ v txr)
    have h2 : ∀ s : ComponentState,
        (runTrace s (paymentCatch p
            (paymentAfterSend p ⟨true, true, true, .ok txr, wai, gtx, gnet⟩ v txr).2)).txn
          = s.txn :=
      fun s => runTrace_txn_of_no_write s _ (paymentCatch_no_txn_write p _)
    simp only [paymentPrologue, runTrace_append, runTrace_cons, runTrace_nil,
      applyAction_write, applyAction_call, applyAction_emit, applyWrite, h1, h2]
  · exact handleAdditionalPayment_no_txn_write p env2 ra
  · rfl

/-- Witness for C6 at the all-success oracle. -/
theorem C6_txn_hash_witness :
    parseEther (sampleProps.amount) = .ok 1000000000000000000
    ∧ (okEnv 1000000000000000000).sendTransaction = .ok { hash := "0xabc" }
    ∧ (runTrace initState (handlePayment sampleProps (okEnv 1000000000000000000))).txn
        = some ("0xabc") := by
  refine ⟨by decide, by decide, ?_⟩
  have h := C6_txn_hash sampleProps (okEnv 1000000000000000000) (okEnv 1000000000000000000)
      initState initState { hash := "0xabc" } 1000000000000000000 none
      (by decide) (by decide) (by decide) (by decide) (by decide)
  exact h.2.1

/-- C8: the payment button renders with `disabled = isLoading`; during
the loading status the modal shows the spinner view, which carries no
confirm control; and each of the two operations writes the loading flag
to true as its very first action — before any external call — and back
to false as its very last, with no other write to the flag in between,
so a submission in flight keeps the flag set until it settles. -/
theorem C8_loading_guard (p : Props) (env : Env) (st : ComponentState) (a : String)
    (r : String) :
    (render (some a) st).payButton = some st.isLoading
    ∧ (st.transactionStatus = some ("Loading") →
        getModalContent st = .loading (st.txn.map (getExplorerUrl 5)))
    ∧ (∃ mid, handlePayment p env
          = Action.write (.isLoading true) :: (mid ++ [Action.write (.isLoading false)])
          ∧ ∀ b, Action.write (.isLoading b) ∉ mid)
    ∧ (∃ mid2, handleAdditionalPayment p env (some r)
          = Action.write (.isLoading true) :: (mid2 ++ [Action.write (.isLoading false)])
          ∧ ∀ b, Action.write (.isLoading b) ∉ mid2) := by
  refine ⟨rfl, ?_, ?_, ?_⟩
  · intro h
    unfold getModalContent
    rw [if_pos h]
  · refine ⟨[Action.write (.transactionStatus (some ("Loading"))),
      Action.write (.validationError none)] ++ ((handlePaymentBody p env).1
        ++ paymentCatch p (handlePaymentBody p env).2), ?_, ?_⟩
    · unfold handlePayment paymentPrologue
      simp
    · intro b hb
      simp only [List.cons_append, List.nil_append, List.mem_cons, List.mem_append] at hb
      rcases hb with h | h | h | h
      · simp at h
      · simp at h
      · exact handlePaymentBody_no_loading_write p env b h
      · exact paymentCatch_no_loading_write p _ b h
  · refine ⟨[Action.write (.transactionStatus (some ("Loading"))),
      Action.write (.errorMsg none), Action.write (.validationError none)]
        ++ ((handleAdditionalPaymentBody p env r).1
          ++ additionalCatch p r (handleAdditionalPaymentBody p env r).2), ?_, ?_⟩
    · simp only [handleAdditionalPayment]
      simp
    · intro b hb
      simp only [List.cons_append, List.nil_append, List.mem_cons, List.mem_append] at hb
      rcases hb with h | h | h | h | h
      · simp at h
      · simp at h
      · simp at h
      · exact handleAdditionalPaymentBody_no_loading_write p env r b h
      · exact additionalCatch_no_loading_write p r _ b h

/-- Witness for C8: the loading modal at a loading state, and the
button disabled flag mirroring `isLoading`. -/
theorem C8_loading_guard_witness :
    ({ initState with transactionStatus := some ("Loading") } : ComponentState).transactionStatus
        = some ("Loading")
    ∧ getModalContent { initState with transactionStatus := some ("Loading") }
        = .loading none := by
  refine ⟨rfl, ?_⟩
  have h := (C8_loading_guard sampleProps (okEnv 1000000000000000000)
      { initState with transactionStatus := some ("Loading") } ("0xUser") ("0.5")).2.1 rfl
  exact h

/-- C10: a pay-remainder run whose external calls all succeed with
receipt status 1 resets `remainingAmount` and the underpaid validation
message to null — so the pay-remainder action is no longer offered by
the success modal — and leaves every other state cell it does not write
untouched; in particular `txn` still holds the original submit hash,
since `handleAdditionalPayment` never writes it. -/
theorem C10_additional_success_frame (p : Props) (env : Env) (st : ComponentState)
    (r : String) (rv av : Int) (txr : TxResponse) (rec : Receipt) (tx : MinedTx)
    (hsdk : env.sdk = true) (hsig : env.signer = true) (hprov : env.provider = true)
    (hr : parseEther r = .ok rv) (ha : parseEther p.amount = .ok av)
    (hsend : env.sendTransaction = .ok txr) (hwait : env.wait = .ok rec)
    (hstat : rec.status = 1) (hget : env.getTransaction = .ok tx) :
    runTrace st (handleAdditionalPayment p env (some r))
      = { st with
          isLoading := false
          errorMsg := none
          validationError := none
          remainingAmount := none
          transactionStatus := some ("Success") }
    ∧ getModalContent (runTrace st (handleAdditionalPayment p env (some r)))
        = .success
            { validationError := none
              payRemainderShown := false
              payRemainderArg := none
              txnActions := st.txn.map (fun _ => st.explorerUrl) } := by
  obtain ⟨sdk, sig, prov, send, wai, gtx, gnet⟩ := env
  simp only at hsdk hsig hprov hsend hwait hget
  subst hsdk hsig hprov hsend hwait hget
  have hfin : runTrace st (handleAdditionalPayment p
      ⟨true, true, true, .ok txr, .ok rec, .ok tx, gnet⟩ (some r))
      = { st with
          isLoading := false
          errorMsg := none
          validationError := none
          remainingAmount := none
          transactionStatus := some ("Success") } := by
    simp only [handleAdditionalPayment]
    unfold handleAdditionalPaymentBody
    simp only [hr, ha, hstat]
    cases hps : p.onPaymentSuccess <;> cases htl : p.onTransactionLog <;>
      simp [hps, htl, runTrace, applyAction, applyWrite, additionalCatch]
  refine ⟨hfin, ?_⟩
  rw [hfin]
  simp [getModalContent]

/-- A state left behind by an underpaid submit: stored hash, a
remaining amount of 0.5 and the underpaid validation message. -/
def underpaidState : ComponentState :=
  { initState with
    txn := some ("0xfirst")
    remainingAmount := some ("0.5")
    validationError := some (owedMsg ("0.5")) }

/-- Witness for C10: paying a remainder of 0.5 ETH with every call
succeeding clears the underpaid state and keeps the stored hash. -/
theorem C10_additional_success_frame_witness :
    parseEther ("0.5") = .ok 500000000000000000
    ∧ (runTrace underpaidState
        (handleAdditionalPayment sampleProps (okEnv 500000000000000000) (some ("0.5")))).txn
        = some ("0xfirst") := by
  refine ⟨by decide, ?_⟩
  have h := C10_additional_success_frame sampleProps (okEnv 500000000000000000)
      underpaidState
      ("0.5") 500000000000000000 1000000000000000000 { hash := "0xabc" } { status := 1 }
      (sampleMined 500000000000000000)
      (by decide) (by decide) (by decide) (by decide) (by decide) (by decide) (by decide)
      (by decide) (by decide)
  rw [h.1]
  rfl

/-- C2 (amended): when the broadcast and receipt succeed with status 1,
the mined transferred value differs from the requested amount, and the
success-path network lookup also succeeds, the run computes
`owed = requested - actual`, stores it formatted as the non-empty
`remainingAmount`, still ends in the success status with
`onPaymentSuccess` invoked when supplied, and the success modal offers
the pay-remainder action carrying exactly that owed value. -/
theorem C2_underpaid_success (p : Props) (env : Env) (st : ComponentState)
    (v : Int) (txr : TxResponse) (rec : Receipt) (tx : MinedTx) (net : Network)
    (hsdk : env.sdk = true) (hsig : env.signer = true) (hprov : env.provider = true)
    (hparse : parseEther p.amount = .ok v) (hsend : env.sendTransaction = .ok txr)
    (hwait : env.wait = .ok rec) (hstat : rec.status = 1)
    (hget : env.getTransaction = .ok tx) (hdiff : tx.value ≠ v)
    (hnet : env.getNetwork = .ok net) :
    runTrace st (handlePayment p env)
      = { st with
          isLoading := false
          paymentConfirmed := true
          validationError := some (owedMsg (formatEther (v - tx.value)))
          remainingAmount := some (formatEther (v - tx.value))
          txn := some txr.hash
          explorerUrl := some (getExplorerUrl net.chainId txr.hash)
          transactionStatus := some ("Success") }
    ∧ formatEther (v - tx.value) ≠ ""
    ∧ (p.onPaymentSuccess = true →
        CallbackEvent.paymentSuccess ∈ emittedEvents (handlePayment p env))
    ∧ getModalContent (runTrace st (handlePayment p env))
        = .success
            { validationError := some (owedMsg (formatEther (v - tx.value)))
              payRemainderShown := true
              payRemainderArg := some (formatEther (v - tx.value))
              txnActions := some (some (getExplorerUrl net.chainId txr.hash)) } := by
  have hne : ¬ (formatEther tx.value = p.amount) := by
    intro he
    rw [← he, parseEther_formatEther] at hparse
    exact hdiff (Except.ok.inj hparse)
  obtain ⟨sdk, sig, prov, send, wai, gtx, gnet⟩ := env
  simp only at hsdk hsig hprov hsend hwait hget hnet
  subst hsdk hsig hprov hsend hwait hget hnet
  have hfin : runTrace st (handlePayment p ⟨true, true, true, .ok txr, .ok rec, .ok tx, .ok net⟩)
      = { st with
          isLoading := false
          paymentConfirmed := true
          validationError := some (owedMsg (formatEther (v - tx.value)))
          remainingAmount := some (formatEther (v - tx.value))
          txn := some txr.hash
          explorerUrl := some (getExplorerUrl net.chainId txr.hash)
          transactionStatus := some ("Success") } := by
    unfold handlePayment handlePaymentBody paymentAfterSend paymentPrologue
    simp only [hparse, hstat]
    cases hps : p.onPaymentSuccess <;> cases htl : p.onTransactionLog <;>
      simp [hps, htl, hne, runTrace, applyAction, applyWrite, paymentCatch]
  refine ⟨hfin, formatEther_ne_empty _, ?_, ?_⟩
  · intro hps
    unfold handlePayment handlePaymentBody paymentAfterSend paymentPrologue
    simp only [hparse, hstat]
    cases htl : p.onTransactionLog <;> simp [hps, htl, hne, emittedEvents, paymentCatch]
  · rw [hfin]
    simp [getModalContent]

/-- Witness for C2: requested 1.0 ETH, mined value 0.5 ETH, all
lookups succeed: owed 0.5 is stored and the action is offered. -/
theorem C2_underpaid_success_witness :
    parseEther (sampleProps.amount) = .ok 1000000000000000000
    ∧ ((500000000000000000 : Int) ≠ (1000000000000000000 : Int))
    ∧ (runTrace initState (handlePayment sampleProps (okEnv 500000000000000000))).remainingAmount
        = some ("0.5") := by
  refine ⟨by decide, by decide, ?_⟩
  have h := C2_underpaid_success sampleProps (okEnv 500000000000000000) initState
      1000000000000000000 { hash := "0xabc" } { status := 1 } (sampleMined 500000000000000000)
      { chainId := 1 }
      (by decide) (by decide) (by decide) (by decide) (by decide) (by decide) (by decide)
      (by decide) (by decide) (by decide)
  rw [h.1]
  decide

/-- An oracle whose transfer confirms underpaid but whose `getNetwork`
lookup rejects afterwards. -/
def underpaidNetFailEnv : Env :=
  { okEnv 500000000000000000 with getNetwork := .error (.jsError ("network down")) }

/-- Counterexample to C2 as stated: all the conditions the claim names
hold (send and wait succeed, receipt status 1, mined value differs from
the requested amount), yet the run ends failed without
`onPaymentSuccess`, because the unmentioned `getNetwork` lookup
rejects on the success path. -/
theorem C2_underpaid_success_cex :
    underpaidNetFailEnv.sendTransaction = .ok { hash := "0xabc" }
    ∧ underpaidNetFailEnv.wait = .ok { status := 1 }
    ∧ underpaidNetFailEnv.getTransaction = .ok (sampleMined 500000000000000000)
    ∧ parseEther (sampleProps.amount) = .ok 1000000000000000000
    ∧ ((500000000000000000 : Int) ≠ (1000000000000000000 : Int))
    ∧ (runTrace initState (handlePayment sampleProps underpaidNetFailEnv)).transactionStatus
        = some ("Failed")
    ∧ CallbackEvent.paymentSuccess
        ∉ emittedEvents (handlePayment sampleProps underpaidNetFailEnv) := by
  decide

/-- C5 (amended): when the external transfer succeeds with status 1,
the mined value equals the requested amount in wei, the network lookup
succeeds, and the amount string is canonical (it equals the formatted
form of its own parse, as `formatEther` output always is), the run ends
in success with `onPaymentSuccess` invoked exactly once, the success
log event carries the requested amount in smallest units, and no
underpaid remainder is surfaced: the validation message stays null,
`remainingAmount` is not written, and the modal offers no pay-remainder
action. -/
theorem C5_exact_payment (p : Props) (env : Env) (st : ComponentState)
    (v : Int) (txr : TxResponse) (rec : Receipt) (tx : MinedTx) (net : Network)
    (hsdk : env.sdk = true) (hsig : env.signer = true) (hprov : env.provider = true)
    (hparse : parseEther p.amount = .ok v) (hsend : env.sendTransaction = .ok txr)
    (hwait : env.wait = .ok rec) (hstat : rec.status = 1)
    (hget : env.getTransaction = .ok tx) (hval : tx.value = v)
    (hcanon : formatEther v = p.amount) (hnet : env.getNetwork = .ok net)
    (hps : p.onPaymentSuccess = true) (htl : p.onTransactionLog = true) :
    runTrace st (handlePayment p env)
      = { st with
          isLoading := false
          paymentConfirmed := true
          validationError := none
          txn := some txr.hash
          explorerUrl := some (getExplorerUrl net.chainId txr.hash)
          transactionStatus := some ("Success") }
    ∧ (emittedEvents (handlePayment p env)).count CallbackEvent.paymentSuccess = 1
    ∧ CallbackEvent.transactionLog (LogEvent.success
        { transactionHash := txr.hash
          fromAddr := tx.fromAddr
          toAddr := tx.toAddr
          amount := bigNumberToString v
          nonce := tx.nonce
          gasLimit := natToString tx.gasLimit
          gasPrice := tx.gasPrice.map natToString
          maxFeePerGas := tx.maxFeePerGas.map natToString
          maxPriorityFeePerGas := tx.maxPriorityFeePerGas.map natToString
          chainId := tx.chainId
          initialAmount := p.amount
          remainingAmount := "0.0" })
        ∈ emittedEvents (handlePayment p env)
    ∧ getModalContent (runTrace st (handlePayment p env))
        = .success
            { validationError := none
              payRemainderShown := false
              payRemainderArg := none
              txnActions := some (some (getExplorerUrl net.chainId txr.hash)) } := by
  have heq : formatEther tx.value = p.amount := by rw [hval, hcanon]
  obtain ⟨sdk, sig, prov, send, wai, gtx, gnet⟩ := env
  simp only at hsdk hsig hprov hsend hwait hget hnet
  subst hsdk hsig hprov hsend hwait hget hnet
  subst hval
  have hfin : runTrace st (handlePayment p ⟨true, true, true, .ok txr, .ok rec, .ok tx, .ok net⟩)
      = { st with
          isLoading := false
          paymentConfirmed := true
          validationError := none
          txn := some txr.hash
          explorerUrl := some (getExplorerUrl net.chainId txr.hash)
          transactionStatus := some ("Success") } := by
    unfold handlePayment handlePaymentBody paymentAfterSend paymentPrologue
    simp only [hparse, hstat]
    simp [hps, htl, heq, runTrace, applyAction, applyWrite, paymentCatch]
  have hev : emittedEvents (handlePayment p ⟨true, true, true, .ok txr, .ok rec, .ok tx, .ok net⟩)
      = [CallbackEvent.paymentSuccess,
         CallbackEvent.transactionLog (LogEvent.success
          { transactionHash := txr.hash
            fromAddr := tx.fromAddr
            toAddr := tx.toAddr
            amount := bigNumberToString tx.value
            nonce := tx.nonce
            gasLimit := natToString tx.gasLimit
            gasPrice := tx.gasPrice.map natToString
            maxFeePerGas := tx.maxFeePerGas.map natToString
            maxPriorityFeePerGas := tx.maxPriorityFeePerGas.map natToString
            chainId := tx.chainId
            initialAmount := p.amount
            remainingAmount := "0.0" })] := by
    unfold handlePayment handlePaymentBody paymentAfterSend paymentPrologue
    simp only [hparse, hstat]
    simp [hps, htl, heq, emittedEvents, paymentCatch]
  refine ⟨hfin, ?_, ?_, ?_⟩
  · rw [hev]
    rfl
  · rw [hev]
    simp
  · rw [hfin]
    simp [getModalContent]

/-- Witness for C5 at the canonical amount string "1.0" and an exact
1-ETH transfer. -/
theorem C5_exact_payment_witness :
    parseEther (sampleProps.amount) = .ok 1000000000000000000
    ∧ formatEther 1000000000000000000 = sampleProps.amount
    ∧ (emittedEvents (handlePayment sampleProps (okEnv 1000000000000000000))).count
        CallbackEvent.paymentSuccess = 1 := by
  refine ⟨by decide, by decide, ?_⟩
  have h := C5_exact_payment sampleProps (okEnv 1000000000000000000) initState
      1000000000000000000 { hash := "0xabc" } { status := 1 } (sampleMined 1000000000000000000)
      { chainId := 1 }
      (by decide) (by decide) (by decide) (by decide) (by decide) (by decide) (by decide)
      (by decide) (by decide) (by decide) (by decide) (by decide) (by decide)
  exact h.2.1

/-- Props identical to `sampleProps` but with the non-canonical amount
string "1". -/
def nonCanonicalProps : Props :=
  { recipient := "0xRecipient", amount := "1", onPaymentSuccess := true,
    onPaymentError := true, onTransactionLog := true }

/-- Counterexample to C5 as stated: with the amount string `"1"` and a
mined value of exactly `10^18` wei — the requested amount — the run
still surfaces an underpaid remainder of `"0.0"`, because line 125
compares the formatted mined value `"1.0"` with the amount string `"1"`
and they differ as strings; the success modal then offers the
pay-remainder action. -/
theorem C5_exact_payment_cex :
    parseEther (nonCanonicalProps.amount) = .ok 1000000000000000000
    ∧ (sampleMined 1000000000000000000).value = 1000000000000000000
    ∧ (runTrace initState
        (handlePayment nonCanonicalProps (okEnv 1000000000000000000))).remainingAmount
        = some ("0.0")
    ∧ (runTrace initState
        (handlePayment nonCanonicalProps (okEnv 1000000000000000000))).validationError
        = some (owedMsg ("0.0"))
    ∧ getModalContent (runTrace initState
        (handlePayment nonCanonicalProps (okEnv 1000000000000000000)))
        = .success
            { validationError := some (owedMsg ("0.0"))
              payRemainderShown := true
              payRemainderArg := some ("0.0")
              txnActions := some (some ("https://etherscan.io/tx/0xabc")) } := by
  decide

/-- C7 (code-bug evaluation): the complete field list of the success
event emitted by a fully successful submit.  The object carries type,
transactionHash, from, to, amount (in wei), nonce, the gas fields,
chainId, initialAmount and remainingAmount — and nothing else: there is
no timeStamp, userAddress or blockNumber field, although the README
documents all three for this event. -/
theorem C7_success_log_fields :
    emittedEvents (handlePayment sampleProps (okEnv 1000000000000000000))
      = [CallbackEvent.paymentSuccess,
         CallbackEvent.transactionLog (LogEvent.success
          { transactionHash := "0xabc"
            fromAddr := "0xSender"
            toAddr := "0xRecipient"
            amount := "1000000000000000000"
            nonce := 0
            gasLimit := "21000"
            gasPrice := some ("50000000000")
            maxFeePerGas := none
            maxPriorityFeePerGas := none
            chainId := 1
            initialAmount := "1.0"
            remainingAmount := "0.0" })] := by
  decide

end TWP
